import Mathlib

/-!
Verification development for the Arkham Horror game engine
(action dispatch, combat/state-machine core, deque, directed graph).

Each Python class relevant to the checked properties is shallowly embedded
as a Lean structure; each method as an executable function. State mutation
becomes explicit state passing; a Python `raise` becomes an `Except.error`
(raising before any mutation returns the error with the state unchanged,
matching the source, where every checked method performs its raises before
its writes unless noted otherwise in a comment). Python dicts are embedded
as insertion-ordered association lists, Python sets as insertion-ordered
duplicate-free lists. `random.randint(1, 6)` call sequences are injected
as a function `rolls : Nat → Int` giving the value of the i-th call.
-/

namespace Arkham

/-- The three monster life-cycle stages (`MonsterStages` literal in monster.py). -/
inductive Stage where
  | ready
  | engaged
  | exhausted
deriving DecidableEq, Repr

/-- Skill names (skills.py `SkillName` enum). -/
inductive SkillName where
  | combat
  | lore
  | will
  | luck
  | observation
deriving DecidableEq, Repr

/-- The distinct error events the embedded methods can raise.  Constructors
carry the data the corresponding Python exception message carries. -/
inductive PyErr where
  /-- custom_errors.NegativeValueError carrying the offending value. -/
  | negativeValue (n : Int)
  /-- monster.py get_damaged: AttributeError, monster already defeated. -/
  | alreadyDefeated
  /-- Monster transition guard AttributeError naming the required and the actual stage. -/
  | stateViolation (required actual : Stage)
  /-- MonsterEngagement.start_engagement AttributeError naming only the actual stage. -/
  | engagementNotReady (actual : Stage)
  /-- MonsterEngagement.no_fight AttributeError; names no stage at all. -/
  | mustBeEngagedToDisengage
  /-- fight_prep.attack_monster ValueError: monster not in the engaged list. -/
  | notEngagedAttack
  /-- fight_prep.evade_monster ValueError: monster not in the engaged list. -/
  | notEngagedEvade
  /-- fight_prep.evade_monster KeyError: no observation skill entry. -/
  | observationSkillNotFound
  /-- fight_prep.evade_monster ValueError: observation level is None. -/
  | observationLevelNone
  /-- fight_prep.evade_monster AttributeError: the bound value is not an integer. -/
  | observationLevelNotAnInt
  /-- AttributeError: Monster._monster_state is declared but never assigned. -/
  | monsterStateAttrMissing
  /-- AttributeError: Combat._inv_items is declared but never assigned by __init__. -/
  | combatInvItemsAttrMissing
  /-- fight_prep.ward_doom KeyError: no lore skill entry. -/
  | loreSkillNotFound
  /-- skills.Skill.level KeyError carrying the missing key. -/
  | skillKeyNotFound (k : SkillName)
  /-- fight_prep.Move.move ValueError: distance above 4. -/
  | maxDistanceExceeded
  /-- fight_prep.spend_money ValueError: balance is exactly 0. -/
  | noMoneyLeft
  /-- fight_prep.spend_money ValueError carrying balance and requested amount. -/
  | notEnoughMoney (available required : Int)
  /-- arkham_horror KeyError: unknown investigator name. -/
  | investigatorNotFound (name : String)
  /-- custom_errors.NotFoundError carrying the attempted key and the valid keys. -/
  | actionNotFound (key : String) (validKeys : List String)
  /-- deque.py IndexError: dequeue from an empty deque. -/
  | dequeueEmpty
  /-- deque.py RuntimeError: pointer None despite a non-empty deque. -/
  | internalStateError
  /-- model artifact: a node address outside the heap (unreachable via the API). -/
  | modelHeapMiss
  /-- digraph.py PartialOrder ValueError: edge would create a cycle. -/
  | cycleNotAllowed
  /-- digraph.py _creates_cycle AttributeError: a node was popped twice. -/
  | nodeRevisited
  /-- model artifact: search fuel exhausted (never hit with the fuel provided). -/
  | dfsFuel
deriving DecidableEq, Repr

/-- Python dict assignment d[k] = v: replace in place if the key exists,
append otherwise (insertion order preserved). -/
def dictSet {α β : Type} [DecidableEq α] (d : List (α × β)) (k : α) (v : β) :
    List (α × β) :=
  if (d.lookup k).isSome then
    d.map (fun p => if p.1 = k then (k, v) else p)
  else
    d ++ [(k, v)]

/-- skills.Skill: a name plus a dict of levels. -/
structure Skill where
  name : SkillName
  levels : List (SkillName × Int)
deriving DecidableEq, Repr

/-- Skill.__new__: the base dict holds combat, lore, will and luck at 0,
then the named skill is set to the given level. -/
def Skill.new (name : SkillName) (level : Int) : Skill :=
  { name := name
    levels := dictSet
      [(.combat, 0), (.lore, 0), (.will, 0), (.luck, 0)] name level }

/-- Skill.level(skill): dict lookup, KeyError when the key is absent. -/
def Skill.level (s : Skill) (k : SkillName) : Except PyErr Int :=
  match s.levels.lookup k with
  | none => .error (.skillKeyNotFound k)
  | some v => .ok v

/-- space.Space: a named location with a 2D position and a doom-token count.
The source annotates the position as a pair of floats; the embedding models
the coordinates as exact integers. -/
structure Space where
  name : String
  position : Int × Int
  doomTokens : Int
deriving DecidableEq, Repr

/-- Space.doom_tokens setter: rejects a negative value with NegativeValueError. -/
def Space.setDoomTokens (sp : Space) (v : Int) : Except PyErr Space :=
  if v < 0 then .error (.negativeValue v)
  else .ok { sp with doomTokens := v }

/-- monster.MonsterHealth: the health counter together with the MonsterState
object the Monster constructor wires into it. -/
structure MonsterHealth where
  health : Int
  stage : Stage
deriving DecidableEq, Repr

/-- MonsterHealth._validate_health: NegativeValueError on a negative value. -/
def MonsterHealth.validateHealth (h : Int) : Except PyErr Int :=
  if h < 0 then .error (.negativeValue h)
  else .ok h

/-- The MonsterHealth.health property setter (validates, then writes). -/
def MonsterHealth.setHealth (mh : MonsterHealth) (v : Int) :
    Except PyErr MonsterHealth :=
  match MonsterHealth.validateHealth v with
  | .error e => .error e
  | .ok h => .ok { mh with health := h }

/-- MonsterHealth.get_damaged: rejects a negative amount, rejects when health
is already at or below 0, doubles the amount for an exhausted monster, and
clamps the result at 0 after subtracting. -/
def MonsterHealth.get_damaged (mh : MonsterHealth) (amount : Int) :
    Except PyErr MonsterHealth :=
  if amount < 0 then .error (.negativeValue amount)
  else if mh.health ≤ 0 then .error .alreadyDefeated
  else
    let h :=
      if mh.stage = .exhausted then mh.health - amount * 2
      else mh.health - amount
    .ok { mh with health := if h < 0 then 0 else h }

/-- monster.Monster.  `mh` embeds `_monster_health`, whose MonsterState the
constructor creates fresh; `engagementStage` embeds the stage of the distinct
MonsterState object held by `_monster_engagement`, and `prey` its `_prey`.
The class also annotates an attribute `_monster_state` that `__new__` never
assigns, so any access to it raises AttributeError; the embedding therefore
has no corresponding field and the access sites return
`PyErr.monsterStateAttrMissing`. -/
structure Monster where
  name : String
  damage : Int
  mh : MonsterHealth
  engagementStage : Stage
  prey : Option String
  speed : Int
  evadeModifier : Int
  location : Space
deriving DecidableEq, Repr

/-- Monster.__new__: validates health through MonsterHealth and starts the
health-side state at ready.  The MonsterEngagement (its own state object and
prey) and the activation data are supplied by the caller. -/
def Monster.new (name : String) (damage health : Int) (engagementStage : Stage)
    (prey : Option String) (speed evadeModifier : Int) (location : Space) :
    Except PyErr Monster :=
  match MonsterHealth.validateHealth health with
  | .error e => .error e
  | .ok h =>
    .ok { name := name, damage := damage, mh := { health := h, stage := .ready }
          engagementStage := engagementStage, prey := prey, speed := speed
          evadeModifier := evadeModifier, location := location }

/-- Monster.state property: reads the health-side MonsterState. -/
def Monster.state (m : Monster) : Stage := m.mh.stage

/-- Monster.take_damage: delegates to MonsterHealth.get_damaged. -/
def Monster.take_damage (m : Monster) (amount : Int) : Except PyErr Monster :=
  match m.mh.get_damaged amount with
  | .error e => .error e
  | .ok mh2 => .ok { m with mh := mh2 }

/-- Monster.engage: guard on the health-side stage, then
MonsterEngagement.start_engagement (which guards on the engagement-side
stage and sets only `_prey`), then the health-side state flips to engaged.
start_engagement never advances the engagement-side state. -/
def Monster.engage (m : Monster) (investigator : String) : Except PyErr Monster :=
  if m.state ≠ .ready then .error (.stateViolation .ready m.state)
  else if m.engagementStage ≠ .ready then .error (.engagementNotReady m.engagementStage)
  else .ok { m with prey := some investigator, mh := { m.mh with stage := .engaged } }

/-- Monster.exhaust: guard on the health-side stage, then flip it to exhausted. -/
def Monster.exhaust (m : Monster) : Except PyErr Monster :=
  if m.state ≠ .engaged then .error (.stateViolation .engaged m.state)
  else .ok { m with mh := { m.mh with stage := .exhausted } }

/-- Monster.disengage: guard on the health-side stage, then
MonsterEngagement.no_fight, which guards on the engagement-side stage
(raising when it is not engaged) and clears the prey; then the health-side
state flips back to ready. -/
def Monster.disengage (m : Monster) : Except PyErr Monster :=
  if m.state ≠ .engaged then .error (.stateViolation .engaged m.state)
  else if m.engagementStage ≠ .engaged then .error .mustBeEngagedToDisengage
  else .ok { m with prey := none, mh := { m.mh with stage := .ready } }

/-- Monster.ready: guard on the health-side stage, then flip it to ready. -/
def Monster.ready (m : Monster) : Except PyErr Monster :=
  if m.state ≠ .exhausted then .error (.stateViolation .exhausted m.state)
  else .ok { m with mh := { m.mh with stage := .ready } }

/-- A throwaway location for concrete states. -/
def sp0 : Space := { name := "rivertown", position := (0, 0), doomTokens := 0 }

/-- Subtract-then-clamp equals max with 0. -/
theorem ite_clamp (x : Int) : (if x < 0 then (0 : Int) else x) = max x 0 := by
  rcases lt_or_le x 0 with h | h
  · rw [if_pos h, max_eq_right h.le]
  · rw [if_neg (not_lt.2 h), max_eq_left h]

/-- C6: Monster.take_damage(amount) raises on a negative amount, raises if
health is already 0, otherwise subtracts exactly twice the amount when the
monster is exhausted and exactly the amount in any other state, and the
resulting health is floored at 0: for every starting health and every
non-negative amount the resulting health is never below 0. -/
theorem take_damage_spec (mh : MonsterHealth) (amount : Int) :
    (amount < 0 →
      mh.get_damaged amount = .error (.negativeValue amount)) ∧
    (0 ≤ amount → mh.health = 0 →
      mh.get_damaged amount = .error .alreadyDefeated) ∧
    (0 ≤ amount → 0 < mh.health →
      mh.get_damaged amount =
        .ok ⟨max (mh.health - (if mh.stage = .exhausted then 2 * amount else amount)) 0,
             mh.stage⟩) ∧
    (∀ mh2, mh.get_damaged amount = .ok mh2 → 0 ≤ mh2.health) := by
  refine ⟨?_, ?_, ?_, ?_⟩
  · intro hneg
    simp [MonsterHealth.get_damaged, hneg]
  · intro hpos hz
    simp [MonsterHealth.get_damaged, not_lt.2 hpos, hz]
  · intro hpos hh
    simp only [MonsterHealth.get_damaged, if_neg (not_lt.2 hpos),
      if_neg (not_le.2 hh), ite_clamp]
    by_cases hs : mh.stage = Stage.exhausted
    · simp [hs, mul_comm]
    · simp [hs]
  · intro mh2 hok
    by_cases hneg : amount < 0
    · simp [MonsterHealth.get_damaged, hneg] at hok
    · by_cases hz : mh.health ≤ 0
      · simp [MonsterHealth.get_damaged, hneg, hz] at hok
      · simp only [MonsterHealth.get_damaged, if_neg hneg, if_neg hz, ite_clamp,
          Except.ok.injEq] at hok
        subst hok
        exact le_max_right _ _

/-- Witness for take_damage_spec: an exhausted monster at health 5 hit for 2
drops to exactly 5 - 2 * 2 = 1. -/
theorem take_damage_spec_witness :
    MonsterHealth.get_damaged ⟨5, .exhausted⟩ 2 =
      .ok ⟨max (5 - 2 * 2) 0, .exhausted⟩ :=
  (take_damage_spec ⟨5, .exhausted⟩ 2).2.2.1 (by decide) (by decide)

/-- C8: a freshly constructed monster (its MonsterEngagement state object
starting, like its health-side state, at ready) engages successfully - its
state becomes engaged, the required source state of disengage - yet
disengage then raises rather than transitioning, because engage advanced
only the health-side MonsterState while MonsterEngagement.no_fight guards on
the engagement-side state object, which nothing ever advances.  The error it
raises names no actual state.  This refutes the claim that a transition
called from its required source state always changes the state. -/
theorem disengage_from_engaged_raises :
    (do
      let m0 ← Monster.new "ghoul" 1 3 .ready none 1 0 sp0
      let m1 ← m0.engage "ann"
      pure m1.state) = .ok Stage.engaged ∧
    (do
      let m0 ← Monster.new "ghoul" 1 3 .ready none 1 0 sp0
      let m1 ← m0.engage "ann"
      m1.disengage) = .error PyErr.mustBeEngagedToDisengage := by
  constructor <;> rfl

/-! ### investigator_status.py -/

/-- investigator_status.InvestigatorStatus: health, sanity, and the
`_is_defeated` flag. -/
structure InvestigatorStatus where
  health : Int
  sanity : Int
  isDefeated : Bool
deriving DecidableEq, Repr

/-- InvestigatorStatus._validate_args: NegativeValueError when the current
health or sanity is negative, otherwise the pair itself (always truthy in
the guarding `if` of the callers). -/
def InvestigatorStatus.validate_args (health sanity : Int) :
    Except PyErr (Int × Int) :=
  if health < 0 then .error (.negativeValue health)
  else if sanity < 0 then .error (.negativeValue sanity)
  else .ok (health, sanity)

/-- InvestigatorStatus.take_damage: validates the current pair (the returned
tuple is always truthy, so the guarded block always runs), rejects a negative
amount, then subtracts it from health.  No lower clamp, and `_is_defeated`
is not touched. -/
def InvestigatorStatus.take_damage (st : InvestigatorStatus) (amount : Int) :
    Except PyErr InvestigatorStatus :=
  match InvestigatorStatus.validate_args st.health st.sanity with
  | .error e => .error e
  | .ok _ =>
    if amount < 0 then .error (.negativeValue amount)
    else .ok { st with health := st.health - amount }

/-- InvestigatorStatus.lose_sanity: same shape as take_damage, on sanity. -/
def InvestigatorStatus.lose_sanity (st : InvestigatorStatus) (amount : Int) :
    Except PyErr InvestigatorStatus :=
  match InvestigatorStatus.validate_args st.health st.sanity with
  | .error e => .error e
  | .ok _ =>
    if amount < 0 then .error (.negativeValue amount)
    else .ok { st with sanity := st.sanity - amount }

/-- InvestigatorStatus.check_defeat: reports whether sanity or health equals 0. -/
def InvestigatorStatus.check_defeat (st : InvestigatorStatus) : Bool :=
  st.sanity == 0 || st.health == 0

/-- C7 counterexample: an investigator at health 5 taking 10 damage ends at
health -5 (negative) with the defeated flag still false - the status
operations clamp nothing and never set the flag. -/
theorem status_damage_goes_negative :
    InvestigatorStatus.take_damage ⟨5, 5, false⟩ 10 = .ok ⟨-5, 5, false⟩ ∧
    (-5 : Int) < 0 := by
  exact ⟨rfl, by decide⟩

/-- C7 amended: take_damage and lose_sanity reject a negative amount (and
reject when the current health or sanity is already negative); from a
non-negative pair they subtract the full amount with no lower clamp, so
health and sanity can become negative, and neither operation modifies the
defeated flag; defeat is only observable through check_defeat, which
reports whether health or sanity is exactly 0. -/
theorem status_ops_spec (st : InvestigatorStatus) (amount : Int) :
    (0 ≤ st.health → 0 ≤ st.sanity → 0 ≤ amount →
      st.take_damage amount = .ok { st with health := st.health - amount } ∧
      st.lose_sanity amount = .ok { st with sanity := st.sanity - amount }) ∧
    (0 ≤ st.health → 0 ≤ st.sanity → amount < 0 →
      st.take_damage amount = .error (.negativeValue amount) ∧
      st.lose_sanity amount = .error (.negativeValue amount)) ∧
    (st.check_defeat = true ↔ st.sanity = 0 ∨ st.health = 0) := by
  refine ⟨?_, ?_, ?_⟩
  · intro hh hs ha
    constructor <;>
      simp [InvestigatorStatus.take_damage, InvestigatorStatus.lose_sanity,
        InvestigatorStatus.validate_args, not_lt.2 hh, not_lt.2 hs, not_lt.2 ha]
  · intro hh hs ha
    constructor <;>
      simp [InvestigatorStatus.take_damage, InvestigatorStatus.lose_sanity,
        InvestigatorStatus.validate_args, not_lt.2 hh, not_lt.2 hs, ha]
  · simp [InvestigatorStatus.check_defeat, or_comm]

/-- Witness for status_ops_spec: from (5, 5) a 10-point hit lands exactly at
health -5 with the flag untouched. -/
theorem status_ops_spec_witness :
    InvestigatorStatus.take_damage ⟨5, 5, false⟩ 10 =
      .ok { (⟨5, 5, false⟩ : InvestigatorStatus) with health := 5 - 10 } ∧
    InvestigatorStatus.lose_sanity ⟨5, 5, false⟩ 10 =
      .ok { (⟨5, 5, false⟩ : InvestigatorStatus) with sanity := 5 - 10 } :=
  (status_ops_spec ⟨5, 5, false⟩ 10).1 (by decide) (by decide) (by decide)

/-! ### fight_prep.py: Combat -/

/-- Value of a Python attribute lookup where the checked code distinguishes
None, an int, and anything else (such as a bound method object). -/
inductive PyVal where
  | pyNone
  | pyInt (n : Int)
  | boundMethod
deriving DecidableEq, Repr

/-- isinstance(v, int). -/
def PyVal.isInt : PyVal → Bool
  | .pyInt _ => true
  | _ => false

/-- Read the integer out of a PyVal; junk 0 on the non-integer constructors,
used only in branches the guards make unreachable. -/
def PyVal.toInt : PyVal → Int
  | .pyInt n => n
  | _ => 0

/-- sum(random.randint(1, 6) >= 5 for _ in range(lev)): the number of
injected rolls among the first lev whose face is at least 5.  A negative
lev gives an empty range. -/
def countSuccesses (lev : Int) (rolls : Nat → Int) : Int :=
  ((List.range lev.toNat).filter (fun i => 5 ≤ rolls i)).length

/-- The InvestigatorItems reachable as Combat._inv_items (only its skills
dict matters to the checked methods). -/
structure CombatItems where
  skills : List (SkillName × Skill)
deriving DecidableEq, Repr

/-- fight_prep.Combat.  `invSkills` embeds
`_investigator._inv_items.skills` (the dict evade_monster reads);
`invItems` embeds the `_inv_items` attribute, which is annotated on the
class but never assigned by `__init__`, hence an Option that `Combat.init`
leaves at none (reading it then raises AttributeError); `engaged` embeds
`__engaged_monsters` - the same list object
`_investigator.engaged_monsters` returns, since the investigator delegates
that property to this combat instance. -/
structure Combat where
  invSkills : List (SkillName × Skill)
  invItems : Option CombatItems
  location : Space
  engaged : List Monster
deriving DecidableEq, Repr

/-- Combat.__init__: stores the investigator, the inventory and the parent
location, and starts the engaged list empty.  It never assigns _inv_items. -/
def Combat.init (invSkills : List (SkillName × Skill)) (parentLocation : Space) :
    Combat :=
  { invSkills := invSkills, invItems := none, location := parentLocation
    engaged := [] }

/-- Combat.attack_monster: requires the monster to be in the engaged list,
then writes health - 1 through the validating MonsterHealth.health setter
(NegativeValueError when the new value is negative - no clamping on this
path).  The monster object is shared with the engaged list, so a successful
write updates the list occurrence as well. -/
def Combat.attack_monster (c : Combat) (m : Monster) :
    Except PyErr (Combat × Monster) :=
  if m ∉ c.engaged then .error .notEngagedAttack
  else
    match m.mh.setHealth (m.mh.health - 1) with
    | .error e => .error e
    | .ok mh2 =>
      let m2 := { m with mh := mh2 }
      .ok ({ c with engaged := c.engaged.map (fun x => if x = m then m2 else x) }, m2)

/-- Combat.evade_monster: requires engagement, fetches the observation
skill (KeyError when absent), then binds `obl = obs_s.level` - the bound
method object itself, since the source does not call it - so the
`obl is None` check passes and the `isinstance(obl, int)` check fails,
raising AttributeError.  The dice-rolling code below those checks is
embedded as written but is unreachable; its success branch would also
raise, because it calls `monster._monster_state.exhaust()` and
`_monster_state` is never assigned by Monster.__new__. -/
def Combat.evade_monster (c : Combat) (m : Monster) (rolls : Nat → Int) :
    Except PyErr (Combat × Monster) :=
  if m ∉ c.engaged then .error .notEngagedEvade
  else
    match c.invSkills.lookup .observation with
    | none => .error .observationSkillNotFound
    | some _obs =>
      let obl : PyVal := PyVal.boundMethod
      if obl = PyVal.pyNone then .error .observationLevelNone
      else if ¬ obl.isInt then .error .observationLevelNotAnInt
      else
        let numRolls := max (obl.toInt + m.evadeModifier) 1
        let numSucc := countSuccesses numRolls rolls
        if 0 < numSucc then
          .error .monsterStateAttrMissing
        else
          Combat.attack_monster c m

/-- Combat.ward_doom: reads self._inv_items - never assigned by __init__,
so the access raises AttributeError before anything else.  The algorithm
below the read: fetch the lore skill (KeyError when absent), roll
lore-level dice, count faces of at least 5, and remove
min(successes, doom_tokens) doom tokens from the location through the
validating doom_tokens setter. -/
def Combat.ward_doom (c : Combat) (rolls : Nat → Int) : Except PyErr Combat :=
  match c.invItems with
  | none => .error .combatInvItemsAttrMissing
  | some items =>
    match items.skills.lookup .lore with
    | none => .error .loreSkillNotFound
    | some loreSkill =>
      match loreSkill.level .lore with
      | .error e => .error e
      | .ok lev =>
        let numSuccesses := countSuccesses lev rolls
        let removedDooms := min numSuccesses c.location.doomTokens
        match c.location.setDoomTokens (c.location.doomTokens - removedDooms) with
        | .error e => .error e
        | .ok loc2 => .ok { c with location := loc2 }

/-- C10: attacking an engaged monster whose health is already 0 writes -1
through the validating health setter, which raises NegativeValueError; the
raise happens before any state is written, so the health stays 0. -/
theorem attack_at_zero_health_raises (c : Combat) (m : Monster)
    (hm : m ∈ c.engaged) (h0 : m.mh.health = 0) :
    Combat.attack_monster c m = .error (.negativeValue (-1)) := by
  simp only [Combat.attack_monster, hm, not_true_eq_false, if_false,
    MonsterHealth.setHealth, MonsterHealth.validateHealth, h0]
  norm_num

/-- Witness for attack_at_zero_health_raises: a concrete combat engaged with
a zero-health ghoul. -/
theorem attack_at_zero_health_raises_witness :
    Combat.attack_monster
      { invSkills := [], invItems := none, location := sp0,
        engaged := [{ name := "ghoul", damage := 1, mh := ⟨0, .engaged⟩,
                      engagementStage := .ready, prey := some "ann", speed := 1,
                      evadeModifier := 0, location := sp0 }] }
      { name := "ghoul", damage := 1, mh := ⟨0, .engaged⟩,
        engagementStage := .ready, prey := some "ann", speed := 1,
        evadeModifier := 0, location := sp0 }
      = .error (.negativeValue (-1)) :=
  attack_at_zero_health_raises _ _ (by simp) rfl

/-- A concrete combat state for the evade counterexample: the investigator
holds an observation skill and is engaged with one ready-to-fight monster. -/
def evadeMonsterEx : Monster :=
  { name := "ghoul", damage := 1, mh := ⟨3, .engaged⟩,
    engagementStage := .ready, prey := some "ann", speed := 1,
    evadeModifier := 0, location := sp0 }

/-- The combat side of the evade counterexample state. -/
def evadeCombatEx : Combat :=
  { invSkills := [(.observation, Skill.new .observation 3)]
    invItems := none
    location := sp0
    engaged := [evadeMonsterEx] }

/-- Whether an Except result is a success. -/
def isOkResult {ε σ : Type} : Except ε σ → Bool
  | .ok _ => true
  | .error _ => false

/-- C2: evade_monster never reaches its dice roll on any input - after the
engagement and skill-presence checks it binds the bound method object
`obs_s.level` without calling it, so the isinstance guard always raises -
and in particular, on a concrete engaged combat with an observation skill
and all-success dice, it raises the not-an-integer AttributeError instead
of exhausting the monster or dealing 1 damage. -/
theorem evade_monster_always_raises :
    (∀ (c : Combat) (m : Monster) (rolls : Nat → Int),
      isOkResult (Combat.evade_monster c m rolls) = false) ∧
    Combat.evade_monster evadeCombatEx evadeMonsterEx
        (fun _ => 6) = .error .observationLevelNotAnInt := by
  constructor
  · intro c m rolls
    unfold Combat.evade_monster
    by_cases hm : m ∈ c.engaged
    · simp only [hm, not_true_eq_false, if_false]
      cases c.invSkills.lookup .observation <;> simp [PyVal.isInt, isOkResult]
    · simp [hm, isOkResult]
  · rfl

/-- A fully populated combat record (its _inv_items attribute present, as
the claim presumes): the lore skill at level 2, standing at a location with
3 doom tokens. -/
def wardCombatEx : Combat :=
  { invSkills := []
    invItems := some { skills := [(.lore, Skill.new .lore 2)] }
    location := { name := "woods", position := (0, 0), doomTokens := 3 }
    engaged := [] }

/-- C3: every combat object the constructor produces has no _inv_items
attribute, so ward_doom raises AttributeError on every input before the
lore-skill lookup the claim describes; by contrast, on a record populated
with that attribute by hand, the embedded algorithm does ward doom as the
claim describes (lore level 2, one success out of two rolls, 3 - 1 = 2
doom tokens left). -/
theorem ward_doom_attr_missing :
    (∀ (skills : List (SkillName × Skill)) (loc : Space) (rolls : Nat → Int),
      Combat.ward_doom (Combat.init skills loc) rolls =
        .error .combatInvItemsAttrMissing) ∧
    Combat.ward_doom wardCombatEx (fun i => if i = 0 then 6 else 1) =
      .ok { wardCombatEx with
            location := { name := "woods", position := (0, 0), doomTokens := 2 } } := by
  constructor
  · intro skills loc rolls
    rfl
  · rfl

/-! ### fight_prep.py: Move -/

/-- The part of the investigator state Move.move touches: the location
property and the money_tokens counter that spend_money checks and deducts. -/
structure MoveInvestigator where
  location : Space
  moneyTokens : Int
deriving DecidableEq, Repr

/-- The squared Euclidean separation of two spaces. -/
def euclidSq (a b : Space) : Int :=
  (a.position.1 - b.position.1) ^ 2 + (a.position.2 - b.position.2) ^ 2

/-- Move.calc_distance: int(math.sqrt(dx**2 + dy**2)).  With the float
coordinates modelled as exact integers, truncating the real square root of
a non-negative integer is Nat.sqrt. -/
def Move.calc_distance (start stop : Space) : Int :=
  (Nat.sqrt (euclidSq start stop).toNat : Int)

/-- InvestigatorItems.spend_money on the money_tokens counter.  The source
binds `value := (money_tokens == 0)` (the walrus captures the comparison,
not the count), so the first guard fires exactly when the balance is 0 and
the later `value < 0` comparison, False against 0, never fires; then an
insufficient balance is rejected, else the amount is deducted. -/
def InvestigatorItems.spend_money (tokens amount : Int) : Except PyErr Int :=
  if tokens = 0 then .error .noMoneyLeft
  else if tokens < amount then .error (.notEnoughMoney tokens amount)
  else .ok (tokens - amount)

/-- Move.move: distance above 4 is rejected; distance at most 2 relocates
for free; otherwise spend_money(distance - 2) runs first and relocation
happens only if it succeeds. -/
def Move.move (inv : MoveInvestigator) (newSpace : Space) :
    Except PyErr MoveInvestigator :=
  let distance := Move.calc_distance inv.location newSpace
  if distance > 4 then .error .maxDistanceExceeded
  else if distance ≤ 2 then .ok { inv with location := newSpace }
  else
    match InvestigatorItems.spend_money inv.moneyTokens (distance - 2) with
    | .error e => .error e
    | .ok t => .ok { inv with moneyTokens := t, location := newSpace }

/-- C9: calc_distance is the integer truncation of the Euclidean distance;
a distance above 4 is rejected with the investigator unchanged; a distance
of at most 2 relocates charging no money; a distance in (2, 4] charges
exactly distance - 2 money tokens before relocating, and when the balance
cannot cover that cost the spend raises and the location stays unchanged. -/
theorem move_spec (inv : MoveInvestigator) (sp : Space) :
    (0 ≤ Move.calc_distance inv.location sp ∧
      (Move.calc_distance inv.location sp) ^ 2 ≤ euclidSq inv.location sp ∧
      euclidSq inv.location sp < (Move.calc_distance inv.location sp + 1) ^ 2) ∧
    (4 < Move.calc_distance inv.location sp →
      Move.move inv sp = .error .maxDistanceExceeded) ∧
    (Move.calc_distance inv.location sp ≤ 2 →
      Move.move inv sp = .ok { inv with location := sp }) ∧
    (2 < Move.calc_distance inv.location sp →
      Move.calc_distance inv.location sp ≤ 4 →
      0 ≤ inv.moneyTokens →
      (inv.moneyTokens < Move.calc_distance inv.location sp - 2 →
        Move.move inv sp = .error
          (if inv.moneyTokens = 0 then .noMoneyLeft
           else .notEnoughMoney inv.moneyTokens (Move.calc_distance inv.location sp - 2))) ∧
      (Move.calc_distance inv.location sp - 2 ≤ inv.moneyTokens →
        Move.move inv sp =
          .ok ⟨sp, inv.moneyTokens - (Move.calc_distance inv.location sp - 2)⟩)) := by
  have hsq : 0 ≤ euclidSq inv.location sp := by
    have h1 := sq_nonneg (inv.location.position.1 - sp.position.1)
    have h2 := sq_nonneg (inv.location.position.2 - sp.position.2)
    unfold euclidSq
    omega
  refine ⟨⟨?_, ?_, ?_⟩, ?_, ?_, ?_⟩
  · exact Int.natCast_nonneg _
  · unfold Move.calc_distance
    conv_rhs => rw [← Int.toNat_of_nonneg hsq]
    exact_mod_cast Nat.sqrt_le' (euclidSq inv.location sp).toNat
  · unfold Move.calc_distance
    conv_lhs => rw [← Int.toNat_of_nonneg hsq]
    exact_mod_cast Nat.lt_succ_sqrt' (euclidSq inv.location sp).toNat
  · intro h4
    simp only [Move.move, if_pos h4]
  · intro h2
    have h4 : ¬ Move.calc_distance inv.location sp > 4 := by omega
    simp only [Move.move, if_neg h4, if_pos h2]
  · intro hlo hhi hmon
    have h4 : ¬ Move.calc_distance inv.location sp > 4 := by omega
    have h2 : ¬ Move.calc_distance inv.location sp ≤ 2 := by omega
    constructor
    · intro hins
      by_cases hz : inv.moneyTokens = 0
      · simp only [Move.move, if_neg h4, if_neg h2,
          InvestigatorItems.spend_money, if_pos hz, if_pos hz]
      · simp only [Move.move, if_neg h4, if_neg h2,
          InvestigatorItems.spend_money, if_neg hz, if_pos hins, if_neg hz]
    · intro hsuf
      have hz : ¬ inv.moneyTokens = 0 := by omega
      have hlt : ¬ inv.moneyTokens < Move.calc_distance inv.location sp - 2 := by
        omega
      simp only [Move.move, if_neg h4, if_neg h2,
        InvestigatorItems.spend_money, if_neg hz, if_neg hlt]

/-- A concrete investigator for the movement witness: 5 money tokens, at
the origin. -/
def moveInvEx : MoveInvestigator :=
  { location := { name := "base", position := (0, 0), doomTokens := 0 }
    moneyTokens := 5 }

/-- A target space at distance 3 from the origin. -/
def spMarket : Space := { name := "market", position := (3, 0), doomTokens := 0 }

/-- Witness for move_spec: moving distance 3 with 5 money tokens succeeds,
charging exactly 1 token. -/
theorem move_spec_witness :
    Move.move moveInvEx spMarket =
      .ok ⟨spMarket,
           moveInvEx.moneyTokens - (Move.calc_distance moveInvEx.location spMarket - 2)⟩ := by
  have h9 : Move.calc_distance moveInvEx.location spMarket = 3 := by
    have he : (euclidSq moveInvEx.location spMarket).toNat = 3 * 3 := by
      have h9 : euclidSq moveInvEx.location spMarket = 9 := by
        norm_num [euclidSq, moveInvEx, spMarket]
      rw [h9]
      rfl
    unfold Move.calc_distance
    rw [he, Nat.sqrt_eq]
    rfl
  exact ((move_spec moveInvEx spMarket).2.2.2
    (by rw [h9]; norm_num) (by rw [h9]; norm_num)
    (by norm_num [moveInvEx])).2
    (by rw [h9]; norm_num [moveInvEx])

/-! ### deque.py -/

/-- deque.Deque, with the heap of QueueNode objects made explicit: a node
lives at a list index (its address) and holds its value with its next and
prev addresses.  `front` and `rear` embed the name-mangled
`__front_items` / `__rear_items` pointers; `size` embeds `__size` (an Int,
since nothing in the source keeps it non-negative); `frontAttr` and
`rearAttr` embed the distinct plain attributes `self.front` / `self.rear`
that dequeue_rear assigns (absent until then, hence Options). -/
structure PyDeque (α : Type) where
  nodes : List (α × Option Nat × Option Nat)
  front : Option Nat
  rear : Option Nat
  size : Int
  frontAttr : Option (Option Nat)
  rearAttr : Option (Option Nat)
deriving DecidableEq, Repr

namespace PyDeque

variable {α : Type} [DecidableEq α]

/-- The node value at an address. -/
def nodeValue (d : PyDeque α) (a : Nat) : Option α := (d.nodes.get? a).map (·.1)

/-- The node _next pointer at an address. -/
def nodeNext (d : PyDeque α) (a : Nat) : Option Nat :=
  match d.nodes.get? a with
  | some (_, nx, _) => nx
  | none => none

/-- The node _prev pointer at an address. -/
def nodePrev (d : PyDeque α) (a : Nat) : Option Nat :=
  match d.nodes.get? a with
  | some (_, _, pv) => pv
  | none => none

/-- Write the _next pointer of the node at an address. -/
def setNext (d : PyDeque α) (a : Nat) (nx : Option Nat) : PyDeque α :=
  { d with nodes := d.nodes.mapIdx fun i p => if i = a then (p.1, nx, p.2.2) else p }

/-- Write the _prev pointer of the node at an address. -/
def setPrev (d : PyDeque α) (a : Nat) (pv : Option Nat) : PyDeque α :=
  { d with nodes := d.nodes.mapIdx fun i p => if i = a then (p.1, p.2.1, pv) else p }

/-- Deque.is_empty: tests the front pointer only. -/
def is_empty (d : PyDeque α) : Bool := d.front.isNone

/-- Deque.enqueue_front: allocate a QueueNode; on an empty deque both
pointers take it, otherwise it is linked before the old front. -/
def enqueue_front (d : PyDeque α) (item : α) : PyDeque α :=
  let a := d.nodes.length
  let d := { d with nodes := d.nodes ++ [(item, none, none)] }
  if d.front = none then
    { d with front := some a, rear := some a, size := d.size + 1 }
  else
    let d := d.setNext a d.front
    let d := match d.front with
      | some fa => d.setPrev fa (some a)
      | none => d
    { d with front := some a, size := d.size + 1 }

/-- Deque.enqueue_rear: mirror image of enqueue_front. -/
def enqueue_rear (d : PyDeque α) (item : α) : PyDeque α :=
  let a := d.nodes.length
  let d := { d with nodes := d.nodes ++ [(item, none, none)] }
  if d.front = none then
    { d with front := some a, rear := some a, size := d.size + 1 }
  else
    let d := d.setPrev a d.rear
    let d := match d.rear with
      | some ra => d.setNext ra (some a)
      | none => d
    { d with rear := some a, size := d.size + 1 }

/-- Deque.__new__(items): enqueue each item at the front in turn. -/
def new (items : List α) : PyDeque α :=
  items.foldl (fun d it => d.enqueue_front it) ⟨[], none, none, 0, none, none⟩

/-- Deque.dequeue_front: IndexError when empty; otherwise unlink the front
node, null the rear pointer too when it was the sole node, and decrement
the size. -/
def dequeue_front (d : PyDeque α) : Except PyErr (α × PyDeque α) :=
  if d.is_empty then .error .dequeueEmpty
  else match d.front with
  | none => .error .internalStateError
  | some fa =>
    match d.nodeValue fa with
    | none => .error .modelHeapMiss
    | some item =>
      let nf := d.nodeNext fa
      let d := { d with front := nf }
      let d := match nf with
        | some nfa => d.setPrev nfa none
        | none => { d with rear := none }
      .ok (item, { d with size := d.size - 1 })

/-- Deque.dequeue_rear: IndexError when empty; otherwise the source assigns
`self.rear = self.__rear_items._prev` and possibly `self.front = None` -
two fresh attributes, not the name-mangled `__rear_items` / `__front_items`
pointers, which stay untouched; when the popped node has a predecessor that
predecessor's _next is really severed; the size is decremented. -/
def dequeue_rear (d : PyDeque α) : Except PyErr (α × PyDeque α) :=
  if d.is_empty then .error .dequeueEmpty
  else match d.rear with
  | none => .error .internalStateError
  | some ra =>
    match d.nodeValue ra with
    | none => .error .modelHeapMiss
    | some item =>
      let p := d.nodePrev ra
      let d := { d with rearAttr := some p }
      let d := match p with
        | some pa => d.setNext pa none
        | none => { d with frontAttr := some (none : Option Nat) }
      .ok (item, { d with size := d.size - 1 })

/-- The number of nodes reachable from an address chain via _next links,
fuelled by the heap size (the chains the API builds are acyclic). -/
def chainCount (d : PyDeque α) : Nat → Option Nat → Nat
  | 0, _ => 0
  | _, none => 0
  | fuel + 1, some a => 1 + chainCount d fuel (d.nodeNext a)

/-- The number of nodes reachable from the front pointer via _next links. -/
def reachableFromFront (d : PyDeque α) : Nat :=
  d.chainCount (d.nodes.length + 1) d.front

end PyDeque

/-- C4: dequeue_rear on the one-element deque Deque([5]) returns the value
and decrements size to 0, but leaves the real front and rear pointers
non-null (it wrote the fresh `self.rear` / `self.front` attributes
instead), so size is 0 while both pointers are set, is_empty reports
false, and one node is still reachable from the front - refuting the
both-null-iff-size-0 and size-equals-reachable-nodes invariants. -/
theorem dequeue_rear_breaks_invariant :
    (PyDeque.new [(5 : Int)]).dequeue_rear.map
      (fun r => (r.1, r.2.size, r.2.front.isSome, r.2.rear.isSome,
                 r.2.is_empty, PyDeque.reachableFromFront r.2))
      = .ok (5, 0, true, true, false, 1) := by
  rfl

/-! ### digraph.py -/

/-- Python set.add on the insertion-ordered duplicate-free list model. -/
def addSet {α : Type} [DecidableEq α] (l : List α) (x : α) : List α :=
  if x ∈ l then l else l ++ [x]

/-- digraph.DiGraph: a node set and an edge set. -/
structure DiGraph (α : Type) where
  nodes : List α
  edges : List (α × α)
deriving DecidableEq, Repr

/-- DiGraph.__new__: both sets start empty. -/
def DiGraph.empty {α : Type} : DiGraph α := ⟨[], []⟩

/-- DiGraph.add_node: idempotent insert. -/
def DiGraph.add_node {α : Type} [DecidableEq α] (g : DiGraph α) (n : α) :
    DiGraph α :=
  { g with nodes := addSet g.nodes n }

/-- DiGraph.add_edge: insert the pair and both endpoints. -/
def DiGraph.add_edge {α : Type} [DecidableEq α] (g : DiGraph α) (tail head : α) :
    DiGraph α :=
  { nodes := addSet (addSet g.nodes tail) head
    edges := addSet g.edges (tail, head) }

/-- The loop of PartialOrder._creates_cycle.  The Python stack pops from
the end and extends with the neighbour list; the model keeps the stack
top-first, so extend pushes the reversed neighbours.  Popping the tail
returns True; popping an already-visited node raises AttributeError
(the source raises instead of skipping); an empty stack returns False.
Each non-final iteration adds a fresh node to visited, so fuel exceeding
the number of distinct nodes is never exhausted; the fuel-out marker is a
model artifact. -/
def creates_cycle_loop {α : Type} [DecidableEq α] (edges : List (α × α))
    (tail : α) : Nat → List α → List α → Except PyErr Bool
  | _, _, [] => .ok false
  | 0, _, _ :: _ => .error .dfsFuel
  | fuel + 1, visited, node :: rest =>
    if node = tail then .ok true
    else if node ∈ visited then .error .nodeRevisited
    else
      let visited := addSet visited node
      let neighbors := (edges.filter (fun e => e.1 = node)).map (·.2)
      creates_cycle_loop edges tail fuel visited (neighbors.reverse ++ rest)

/-- PartialOrder._creates_cycle: depth-first search from head for tail. -/
def PartialOrder.creates_cycle {α : Type} [DecidableEq α] (g : DiGraph α)
    (tail head : α) : Except PyErr Bool :=
  creates_cycle_loop g.edges tail
    (g.nodes.length + g.edges.length + 1) [] [head]

/-- PartialOrder.add_edge: reject with the cycle ValueError when the search
finds the tail, propagate any error the search itself raises, otherwise
delegate to the base insert. -/
def PartialOrder.add_edge {α : Type} [DecidableEq α] (g : DiGraph α)
    (tail head : α) : Except PyErr (DiGraph α) :=
  match PartialOrder.creates_cycle g tail head with
  | .error e => .error e
  | .ok true => .error .cycleNotAllowed
  | .ok false => .ok (g.add_edge tail head)

/-- C5: the diamond 0 to 1, 0 to 2, 1 to 3, 2 to 3 is built by four
accepted add_edge calls, and the fifth call add_edge(9, 0) - an edge that
creates no cycle, since node 9 has no incoming edges - is then rejected
with the revisit AttributeError: the depth-first search reaches node 3
along both branches of the diamond and the source raises on the second
visit instead of skipping it.  This refutes the only-if direction of the
claim (edges whose head does not reach the tail are not always
inserted). -/
theorem add_edge_diamond_raises :
    (do
      let g1 ← PartialOrder.add_edge (DiGraph.empty (α := Nat)) 0 1
      let g2 ← PartialOrder.add_edge g1 0 2
      let g3 ← PartialOrder.add_edge g2 1 3
      let g4 ← PartialOrder.add_edge g3 2 3
      PartialOrder.add_edge g4 9 0) = .error .nodeRevisited := by
  rfl

/-! ### arkham_horror.py: action registry and dispatcher -/

/-- str.startswith on the char lists of the two strings. -/
def pyStartswith (s pre : String) : Bool := pre.data.isPrefixOf s.data

/-- str.replace(old, new): replace every non-overlapping occurrence, left
to right, fuelled by the length of the subject (enough whenever old is
non-empty, as it is at the single call site). -/
def replaceChars : Nat → List Char → List Char → List Char → List Char
  | 0, s, _, _ => s
  | fuel + 1, s, old, new =>
    match s with
    | [] => []
    | c :: rest =>
      if old.isPrefixOf (c :: rest) then
        new ++ replaceChars fuel ((c :: rest).drop old.length) old new
      else
        c :: replaceChars fuel rest old new

/-- str.replace on Strings. -/
def pyReplace (s old new : String) : String :=
  ⟨replaceChars s.data.length s.data old.data new.data⟩

/-- The names of the attributes defined in the class body of ActionManager
(the dict the Action metaclass scans).  None of them starts with the
reserved marker. -/
def actionManagerMethods : List String :=
  ["__new__", "get_action_map", "perform_investigator_action",
   "_move_investigator", "_attack_monster", "_evade_monster", "_ward_doom",
   "resolve_encounter"]

/-- Action.__new__: _registered_actions collects, keyed by the full method
name, every callable class-dict entry whose name starts with the reserved
marker.  The handler is represented by its method name. -/
def registered_actions : List (String × String) :=
  (actionManagerMethods.filter (fun k => pyStartswith k "_action")).map
    (fun k => (k, k))

/-- ActionManager.get_action_map: re-key the registry by the name with the
marker stripped out. -/
def get_action_map : List (String × String) :=
  registered_actions.map (fun p => (pyReplace p.1 "_action" "", p.2))

/-- The shape of the call the dispatcher would make. -/
inductive Invocation where
  | niladic (handler : String)
  | withActor (handler : String) (actor : String)
deriving DecidableEq, Repr

/-- ActionManager.perform_investigator_action: resolve the investigator
(KeyError when unknown), look the action up in the map (NotFoundError
carrying the attempted key and the valid keys when absent), and invoke the
handler with no arguments for the three draw actions, else with the
investigator and the extra arguments. -/
def perform_investigator_action (investigators : List String)
    (investigatorName actionName : String) : Except PyErr Invocation :=
  if investigatorName ∉ investigators then
    .error (.investigatorNotFound investigatorName)
  else
    match get_action_map.lookup actionName with
    | none => .error (.actionNotFound actionName (get_action_map.map (·.1)))
    | some handler =>
      if actionName ∈ ["draw_token", "draw_event_token", "draw_monster"] then
        .ok (.niladic handler)
      else
        .ok (.withActor handler investigatorName)

/-- C1: no ActionManager method name starts with the reserved marker, so
the registry and the action map are empty - the in-scope handlers
(_move_investigator, _attack_monster, _evade_monster, _ward_doom) are
not registered under any name - and dispatch fails with the not-found
error for every action name, including the example in the dispatcher
docstring, with an empty valid-key set. -/
theorem action_map_empty :
    get_action_map = [] ∧
    perform_investigator_action ["Lakshmi Patel"] "Lakshmi Patel"
        "move_investigator" = .error (.actionNotFound "move_investigator" []) ∧
    ∀ name : String, get_action_map.lookup name = none := by
  refine ⟨rfl, rfl, ?_⟩
  intro name
  rfl

end Arkham
